import Mathlib

/-!
Verification of `pkg/kubelet/dockershim/metrics/metrics.go`.

The Go source declares eight metric series (four current, four deprecated),
a one-shot registration entry point `Register` guarded by a `sync.Once`,
and two elapsed-time helpers `SinceInMicroseconds` and `SinceInSeconds`.
We embed the declarations and the pure arithmetic of the helpers directly;
the external collaborators (`legacyregistry.MustRegister`, `sync.Once`,
`metrics.DefBuckets`) are not part of the source tree and are modelled
from the specification where noted.
-/

namespace DockershimMetrics

/-- The kind of a metric series: Counter, Histogram, or Summary. -/
inductive MetricKind where
  | counter
  | histogram
  | summary
deriving DecidableEq, Repr

/-- `DockerOperationsKey` is the key for docker operation metrics. -/
def DockerOperationsKey : String := "docker_operations_total"

/-- `DockerOperationsLatencyKey` is the key for the operation latency metrics. -/
def DockerOperationsLatencyKey : String := "docker_operations_duration_seconds"

/-- `DockerOperationsErrorsKey` is the key for the operation error metrics. -/
def DockerOperationsErrorsKey : String := "docker_operations_errors_total"

/-- `DockerOperationsTimeoutKey` is the key for the operation timeout metrics. -/
def DockerOperationsTimeoutKey : String := "docker_operations_timeout_total"

/-- `DeprecatedDockerOperationsKey` is the deprecated key for docker operation metrics. -/
def DeprecatedDockerOperationsKey : String := "docker_operations"

/-- `DeprecatedDockerOperationsLatencyKey` is the deprecated key for the operation latency metrics. -/
def DeprecatedDockerOperationsLatencyKey : String := "docker_operations_latency_microseconds"

/-- `DeprecatedDockerOperationsErrorsKey` is the deprecated key for the operation error metrics. -/
def DeprecatedDockerOperationsErrorsKey : String := "docker_operations_errors"

/-- `DeprecatedDockerOperationsTimeoutKey` is the deprecated key for the operation timeout metrics. -/
def DeprecatedDockerOperationsTimeoutKey : String := "docker_operations_timeout"

/-- Keep the "kubelet" subsystem for backward compatibility. -/
def kubeletSubsystem : String := "kubelet"

/-- Modelled from the spec: `metrics.DefBuckets` (from `k8s.io/component-base/metrics`,
not part of this source tree) is the fixed, predefined set of histogram bucket
boundaries suitable for sub-second-to-multi-second latencies, i.e. the Prometheus
default buckets .005, .01, .025, .05, .1, .25, .5, 1, 2.5, 5, 10 (seconds). -/
def DefBuckets : List ℚ :=
  [5/1000, 1/100, 25/1000, 5/100, 1/10, 25/100, 5/10, 1, 5/2, 5, 10]

/-- Modelled from the spec: the ALPHA stability level tag of
`k8s.io/component-base/metrics` (experimental series). -/
def ALPHA : String := "ALPHA"

/-- Options for a histogram vector, mirroring `metrics.HistogramOpts`:
the fields this file sets, plus the deprecation marker (absent = `none`,
mirroring Go's empty-string zero value of `DeprecatedVersion`). -/
structure HistogramOpts where
  Subsystem : String
  Name : String
  Help : String
  Buckets : List ℚ
  StabilityLevel : String
  DeprecatedVersion : Option String
deriving DecidableEq, Repr

/-- Options for a counter vector, mirroring `metrics.CounterOpts`. -/
structure CounterOpts where
  Subsystem : String
  Name : String
  Help : String
  StabilityLevel : String
  DeprecatedVersion : Option String
deriving DecidableEq, Repr

/-- Options for a summary vector, mirroring `metrics.SummaryOpts`
(the quantile-estimation internals are irrelevant to the claims). -/
structure SummaryOpts where
  Subsystem : String
  Name : String
  Help : String
  StabilityLevel : String
  DeprecatedVersion : Option String
deriving DecidableEq, Repr

/-- A constructed metric vector: the immutable descriptor of one series.
Identity is the (subsystem, name) pair; `buckets` is empty for
non-histogram kinds. -/
structure MetricVec where
  kind : MetricKind
  subsystem : String
  name : String
  help : String
  buckets : List ℚ
  stabilityLevel : String
  deprecatedVersion : Option String
  labels : List String
deriving DecidableEq, Repr

/-- `metrics.NewHistogramVec`: build a histogram series descriptor. -/
def NewHistogramVec (opts : HistogramOpts) (labels : List String) : MetricVec :=
  { kind := MetricKind.histogram
    subsystem := opts.Subsystem
    name := opts.Name
    help := opts.Help
    buckets := opts.Buckets
    stabilityLevel := opts.StabilityLevel
    deprecatedVersion := opts.DeprecatedVersion
    labels := labels }

/-- `metrics.NewCounterVec`: build a counter series descriptor. -/
def NewCounterVec (opts : CounterOpts) (labels : List String) : MetricVec :=
  { kind := MetricKind.counter
    subsystem := opts.Subsystem
    name := opts.Name
    help := opts.Help
    buckets := []
    stabilityLevel := opts.StabilityLevel
    deprecatedVersion := opts.DeprecatedVersion
    labels := labels }

/-- `metrics.NewSummaryVec`: build a summary series descriptor. -/
def NewSummaryVec (opts : SummaryOpts) (labels : List String) : MetricVec :=
  { kind := MetricKind.summary
    subsystem := opts.Subsystem
    name := opts.Name
    help := opts.Help
    buckets := []
    stabilityLevel := opts.StabilityLevel
    deprecatedVersion := opts.DeprecatedVersion
    labels := labels }

/-- `DockerOperationsLatency` collects operation latency numbers by operation type. -/
def DockerOperationsLatency : MetricVec :=
  NewHistogramVec
    { Subsystem := kubeletSubsystem
      Name := DockerOperationsLatencyKey
      Help := "Latency in seconds of Docker operations. Broken down by operation type."
      Buckets := DefBuckets
      StabilityLevel := ALPHA
      DeprecatedVersion := none }
    ["operation_type"]

/-- `DockerOperations` collects operation counts by operation type. -/
def DockerOperations : MetricVec :=
  NewCounterVec
    { Subsystem := kubeletSubsystem
      Name := DockerOperationsKey
      Help := "Cumulative number of Docker operations by operation type."
      StabilityLevel := ALPHA
      DeprecatedVersion := none }
    ["operation_type"]

/-- `DockerOperationsErrors` collects operation errors by operation type. -/
def DockerOperationsErrors : MetricVec :=
  NewCounterVec
    { Subsystem := kubeletSubsystem
      Name := DockerOperationsErrorsKey
      Help := "Cumulative number of Docker operation errors by operation type."
      StabilityLevel := ALPHA
      DeprecatedVersion := none }
    ["operation_type"]

/-- `DockerOperationsTimeout` collects operation timeouts by operation type. -/
def DockerOperationsTimeout : MetricVec :=
  NewCounterVec
    { Subsystem := kubeletSubsystem
      Name := DockerOperationsTimeoutKey
      Help := "Cumulative number of Docker operation timeout by operation type."
      StabilityLevel := ALPHA
      DeprecatedVersion := none }
    ["operation_type"]

/-- `DeprecatedDockerOperationsLatency` collects operation latency numbers by operation type. -/
def DeprecatedDockerOperationsLatency : MetricVec :=
  NewSummaryVec
    { Subsystem := kubeletSubsystem
      Name := DeprecatedDockerOperationsLatencyKey
      Help := "Latency in microseconds of Docker operations. Broken down by operation type."
      StabilityLevel := ALPHA
      DeprecatedVersion := some "1.14.0" }
    ["operation_type"]

/-- `DeprecatedDockerOperations` collects operation counts by operation type. -/
def DeprecatedDockerOperations : MetricVec :=
  NewCounterVec
    { Subsystem := kubeletSubsystem
      Name := DeprecatedDockerOperationsKey
      Help := "Cumulative number of Docker operations by operation type."
      StabilityLevel := ALPHA
      DeprecatedVersion := some "1.14.0" }
    ["operation_type"]

/-- `DeprecatedDockerOperationsErrors` collects operation errors by operation type. -/
def DeprecatedDockerOperationsErrors : MetricVec :=
  NewCounterVec
    { Subsystem := kubeletSubsystem
      Name := DeprecatedDockerOperationsErrorsKey
      Help := "Cumulative number of Docker operation errors by operation type."
      StabilityLevel := ALPHA
      DeprecatedVersion := some "1.14.0" }
    ["operation_type"]

/-- `DeprecatedDockerOperationsTimeout` collects operation timeouts by operation type. -/
def DeprecatedDockerOperationsTimeout : MetricVec :=
  NewCounterVec
    { Subsystem := kubeletSubsystem
      Name := DeprecatedDockerOperationsTimeoutKey
      Help := "Cumulative number of Docker operation timeout by operation type."
      StabilityLevel := ALPHA
      DeprecatedVersion := some "1.14.0" }
    ["operation_type"]

/-- The eight series, in the order `Register` installs them. -/
def allSeries : List MetricVec :=
  [DockerOperationsLatency, DockerOperations, DockerOperationsErrors,
   DockerOperationsTimeout, DeprecatedDockerOperationsLatency,
   DeprecatedDockerOperations, DeprecatedDockerOperationsErrors,
   DeprecatedDockerOperationsTimeout]

/-- The four current metric name constants, then the four deprecated ones. -/
def allKeys : List String :=
  [DockerOperationsKey, DockerOperationsLatencyKey, DockerOperationsErrorsKey,
   DockerOperationsTimeoutKey, DeprecatedDockerOperationsKey,
   DeprecatedDockerOperationsLatencyKey, DeprecatedDockerOperationsErrorsKey,
   DeprecatedDockerOperationsTimeoutKey]

/-- The four current series. -/
def currentSeries : List MetricVec :=
  [DockerOperationsLatency, DockerOperations, DockerOperationsErrors,
   DockerOperationsTimeout]

/-- The four deprecated series. -/
def deprecatedSeries : List MetricVec :=
  [DeprecatedDockerOperationsLatency, DeprecatedDockerOperations,
   DeprecatedDockerOperationsErrors, DeprecatedDockerOperationsTimeout]

/-- The four current metric name constants. -/
def currentKeys : List String :=
  [DockerOperationsKey, DockerOperationsLatencyKey, DockerOperationsErrorsKey,
   DockerOperationsTimeoutKey]

/-- The four deprecated metric name constants. -/
def deprecatedKeys : List String :=
  [DeprecatedDockerOperationsKey, DeprecatedDockerOperationsLatencyKey,
   DeprecatedDockerOperationsErrorsKey, DeprecatedDockerOperationsTimeoutKey]

/-- Two series collide when they share the (subsystem, name) identity pair. -/
def sameIdentity (a b : MetricVec) : Bool :=
  a.subsystem == b.subsystem && a.name == b.name

/-- Modelled from the spec: `legacyregistry.MustRegister` (from
`k8s.io/component-base/metrics/legacyregistry`, not part of this source tree)
installs a series into the shared registry and treats a duplicate-identity
collision as a fatal, process-level error (a panic, modelled as `Except.error`
that no caller in this module catches). -/
def MustRegister (reg : List MetricVec) (m : MetricVec) :
    Except String (List MetricVec) :=
  if reg.any (fun r => sameIdentity r m) then
    Except.error ("duplicate metrics collector registration attempted: " ++ m.name)
  else
    Except.ok (reg ++ [m])

/-- The mutable state this module touches: the `registerMetrics` one-shot flag
(`sync.Once`, true once its body has run) and the shared registry contents. -/
structure MetricsState where
  once : Bool
  registry : List MetricVec
deriving DecidableEq, Repr

/-- The body of the `sync.Once` closure inside `Register`: install all eight
series, in source order, aborting fatally on the first collision. -/
def registerBody (reg : List MetricVec) : Except String (List MetricVec) := do
  let reg ← MustRegister reg DockerOperationsLatency
  let reg ← MustRegister reg DockerOperations
  let reg ← MustRegister reg DockerOperationsErrors
  let reg ← MustRegister reg DockerOperationsTimeout
  let reg ← MustRegister reg DeprecatedDockerOperationsLatency
  let reg ← MustRegister reg DeprecatedDockerOperations
  let reg ← MustRegister reg DeprecatedDockerOperationsErrors
  let reg ← MustRegister reg DeprecatedDockerOperationsTimeout
  pure reg

/-- `Register` registers all metrics: on the first call the `sync.Once` runs
`registerBody`; on any later call it returns the state unchanged. A fatal
registry error propagates uncaught. -/
def Register (s : MetricsState) : Except String MetricsState :=
  if s.once then Except.ok s
  else
    match registerBody s.registry with
    | Except.ok reg => Except.ok ⟨true, reg⟩
    | Except.error e => Except.error e

/-- `n` successive serial calls to `Register`. -/
def RegisterN : Nat → MetricsState → Except String MetricsState
  | 0, s => Except.ok s
  | n + 1, s =>
    match Register s with
    | Except.ok s₁ => RegisterN n s₁
    | Except.error e => Except.error e

/-- Process start: the once gate untriggered and the shared registry empty. -/
def initialState : MetricsState := ⟨false, []⟩

/-! ## Elapsed-time helpers

Go's `time.Time` differences and `time.Duration` are an `int64` count of
nanoseconds; we embed timestamps and durations as `ℤ` nanoseconds (the
claims never approach the `int64` range, nor the `float64` precision limit,
so `ℤ`/`ℚ` arithmetic is exact where Go's is). "Now" is sampled at call
time, so it is an explicit argument of each helper. -/

/-- `time.Microsecond.Nanoseconds()`. -/
def microsecondNanoseconds : ℤ := 1000

/-- `time.Second` as a nanosecond count. -/
def secondNanoseconds : ℤ := 1000000000

/-- `time.Since(start)`: the duration `now - start`, in nanoseconds. -/
def timeSince (now start : ℤ) : ℤ := now - start

/-- `time.Duration.Seconds()`: `sec := d / Second; nsec := d % Second;`
`float64(sec) + float64(nsec)/1e9`, with Go's truncated `int64` division
and remainder. -/
def durationSeconds (d : ℤ) : ℚ :=
  ((d.tdiv secondNanoseconds : ℤ) : ℚ) +
    ((d.tmod secondNanoseconds : ℤ) : ℚ) / (secondNanoseconds : ℚ)

/-- `SinceInMicroseconds` gets the time since the specified start in
microseconds: `float64(time.Since(start).Nanoseconds() / 1000)` with Go's
truncated (toward-zero) `int64` division. -/
def SinceInMicroseconds (now start : ℤ) : ℚ :=
  (((timeSince now start).tdiv microsecondNanoseconds : ℤ) : ℚ)

/-- `SinceInSeconds` gets the time since the specified start in seconds:
`time.Since(start).Seconds()`. -/
def SinceInSeconds (now start : ℤ) : ℚ :=
  durationSeconds (timeSince now start)

/-! ## The one-shot gate under concurrency

Modelled from the spec: `sync.Once` (Go standard library, not part of this
source tree) is described as "a single-execution gate: the first caller
executes the registration body while all concurrent callers block until it
completes, then all return". We model `n` concurrent callers of `Register`
as an interleaved transition system and prove the gate's guarantees over
every reachable configuration. -/

/-- The phase of one concurrent caller of `Register`. -/
inductive CallerPhase where
  | idle
  | executing
  | waiting
  | returned
deriving DecidableEq, Repr

/-- The state of the `sync.Once` gate. -/
inductive GateState where
  | notStarted
  | inProgress
  | done
deriving DecidableEq, Repr

/-- A configuration of `n` concurrent callers racing on the gate:
the gate state, each caller's phase, and how many times the registration
body has completed. -/
structure OnceConfig (n : Nat) where
  gate : GateState
  callers : Fin n → CallerPhase
  bodyRuns : Nat

/-- One interleaved step. An idle caller that finds the gate untriggered
acquires it and starts executing the body; an idle caller that finds the
body in progress blocks; an idle caller that finds the gate done returns
at once; the executing caller finishes the body, marking the gate done;
a blocked caller returns once the gate is done. -/
inductive OnceStep {n : Nat} : OnceConfig n → OnceConfig n → Prop where
  | acquire (c : OnceConfig n) (i : Fin n) :
      c.gate = GateState.notStarted → c.callers i = CallerPhase.idle →
      OnceStep c ⟨GateState.inProgress,
        Function.update c.callers i CallerPhase.executing, c.bodyRuns⟩
  | block (c : OnceConfig n) (i : Fin n) :
      c.gate = GateState.inProgress → c.callers i = CallerPhase.idle →
      OnceStep c ⟨c.gate, Function.update c.callers i CallerPhase.waiting, c.bodyRuns⟩
  | fastReturn (c : OnceConfig n) (i : Fin n) :
      c.gate = GateState.done → c.callers i = CallerPhase.idle →
      OnceStep c ⟨c.gate, Function.update c.callers i CallerPhase.returned, c.bodyRuns⟩
  | finish (c : OnceConfig n) (i : Fin n) :
      c.callers i = CallerPhase.executing →
      OnceStep c ⟨GateState.done,
        Function.update c.callers i CallerPhase.returned, c.bodyRuns + 1⟩
  | wake (c : OnceConfig n) (i : Fin n) :
      c.gate = GateState.done → c.callers i = CallerPhase.waiting →
      OnceStep c ⟨c.gate, Function.update c.callers i CallerPhase.returned, c.bodyRuns⟩

/-- The start of the race: gate untriggered, every caller idle, body never run. -/
def onceInit (n : Nat) : OnceConfig n :=
  ⟨GateState.notStarted, fun _ => CallerPhase.idle, 0⟩

/-- A configuration is reachable when some interleaving of steps produces it. -/
def OnceReachable {n : Nat} (c : OnceConfig n) : Prop :=
  Relation.ReflTransGen OnceStep (onceInit n) c

/-- The inductive invariant of the gate: before acquisition nothing has
happened; while the body runs exactly one caller is executing, the body has
not yet completed and nobody has returned; once done the body has run
exactly once and nobody is executing. -/
def OnceInv {n : Nat} (c : OnceConfig n) : Prop :=
  (c.gate = GateState.notStarted →
    c.bodyRuns = 0 ∧ ∀ i, c.callers i = CallerPhase.idle) ∧
  (c.gate = GateState.inProgress →
    c.bodyRuns = 0 ∧ (∃ i, c.callers i = CallerPhase.executing) ∧
    (∀ i j, c.callers i = CallerPhase.executing →
      c.callers j = CallerPhase.executing → i = j) ∧
    (∀ i, c.callers i ≠ CallerPhase.returned)) ∧
  (c.gate = GateState.done →
    c.bodyRuns = 1 ∧ ∀ i, c.callers i ≠ CallerPhase.executing)

/-- A demonstration race of two callers: caller 0 has acquired the gate and
is executing the registration body. -/
def onceDemoMid : OnceConfig 2 :=
  ⟨GateState.inProgress,
   Function.update (onceInit 2).callers 0 CallerPhase.executing, 0⟩

/-- The demonstration race after caller 0 finishes the body and returns. -/
def onceDemoEnd : OnceConfig 2 :=
  ⟨GateState.done,
   Function.update onceDemoMid.callers 0 CallerPhase.returned, 0 + 1⟩

/-- The state after the first successful `Register` call: once gate fired,
all eight series installed in source order. -/
def registeredState : MetricsState := ⟨true, allSeries⟩

/-! ## Theorems -/

/-- C6: the eight metric name constants are pairwise distinct strings, so no
two of the declared series collide within their shared subsystem. -/
theorem metric_keys_pairwise_distinct : allKeys.Nodup ∧ allKeys.length = 8 := by
  decide

/-- C9: every one of the eight series is declared under the subsystem
"kubelet" with exactly one label dimension, "operation_type", and all four
deprecated series carry the deprecation version string "1.14.0". -/
theorem series_subsystem_labels_deprecation_version :
    (allSeries.all fun m =>
      m.subsystem == "kubelet" && m.labels == ["operation_type"]) = true ∧
    (deprecatedSeries.all fun m =>
      m.deprecatedVersion == some "1.14.0") = true ∧
    allSeries.length = 8 := by
  decide

/-- C7: the current latency series is a Histogram in seconds with the fixed
predefined bucket set, its deprecated counterpart is a Summary in
microseconds, the four deprecated names are disjoint from the four current
names, and exactly the deprecated series carry a deprecation marker. -/
theorem latency_kinds_and_deprecation_markers :
    DockerOperationsLatency.kind = MetricKind.histogram ∧
    DockerOperationsLatency.buckets = DefBuckets ∧
    DockerOperationsLatency.help
      = "Latency in seconds of Docker operations. Broken down by operation type." ∧
    DeprecatedDockerOperationsLatency.kind = MetricKind.summary ∧
    DeprecatedDockerOperationsLatency.help
      = "Latency in microseconds of Docker operations. Broken down by operation type." ∧
    (deprecatedKeys.all fun k => !(currentKeys.contains k)) = true ∧
    (deprecatedSeries.all fun m => m.deprecatedVersion.isSome) = true ∧
    (currentSeries.all fun m => m.deprecatedVersion == none) = true :=
  ⟨rfl, rfl, rfl, rfl, rfl, by decide, by decide, by decide⟩

/-- Go's truncated division by 1000 agrees with Euclidean division on
nonnegative dividends and is its negation on negated dividends. -/
lemma tdiv_1000_eq (a : ℤ) (h : 0 ≤ a) : a.tdiv 1000 = a / 1000 :=
  Int.tdiv_eq_ediv h (by norm_num)

/-- Truncated division by 1000 discards the remainder toward zero: the
quotient times 1000 never exceeds the dividend in magnitude, and misses it
by less than 1000. -/
lemma tdiv_1000_truncates (a : ℤ) :
    (a.tdiv 1000).natAbs * 1000 ≤ a.natAbs ∧
    a.natAbs < (a.tdiv 1000).natAbs * 1000 + 1000 := by
  rcases le_or_lt 0 a with ha | ha
  · have hq : a.tdiv 1000 = a / 1000 := tdiv_1000_eq a ha
    omega
  · have h₁ : (-a).tdiv 1000 = (-a) / 1000 := tdiv_1000_eq (-a) (by omega)
    have h₂ : (-a).tdiv 1000 = -(a.tdiv 1000) := Int.neg_tdiv a 1000
    omega

/-- `Duration.Seconds` is exact: truncated quotient plus scaled truncated
remainder reassemble the full-precision fraction `d / 10⁹`. -/
lemma durationSeconds_eq (d : ℤ) :
    durationSeconds d = (d : ℚ) / 1000000000 := by
  have h := Int.tdiv_add_tmod d 1000000000
  have hq : ((1000000000 * d.tdiv 1000000000 + d.tmod 1000000000 : ℤ) : ℚ)
      = (d : ℚ) := by exact_mod_cast congrArg (fun z : ℤ => (z : ℚ)) h
  push_cast at hq
  unfold durationSeconds secondNanoseconds
  field_simp
  linarith

/-- C2: for all timestamps, `SinceInMicroseconds` is the elapsed nanosecond
count divided by 1000 with Go's truncated integer division: the sub-
microsecond remainder is discarded (the result never exceeds the true
quotient in magnitude and is never rounded away from zero), and a start
exactly 2.5 seconds in the past yields 2 500 000. -/
theorem sinceInMicroseconds_truncated_division (now start : ℤ) :
    SinceInMicroseconds now start = (((now - start).tdiv 1000 : ℤ) : ℚ) ∧
    ((now - start).tdiv 1000).natAbs * 1000 ≤ (now - start).natAbs ∧
    (now - start).natAbs < ((now - start).tdiv 1000).natAbs * 1000 + 1000 ∧
    SinceInMicroseconds (start + 2500000000) start = 2500000 := by
  refine ⟨rfl, (tdiv_1000_truncates _).1, (tdiv_1000_truncates _).2, ?_⟩
  have h : timeSince (start + 2500000000) start = 2500000000 := by
    unfold timeSince; ring
  unfold SinceInMicroseconds
  rw [h]
  decide

/-- C3: for all timestamps, `SinceInSeconds` is the elapsed duration
`now - start` as an exact fraction of seconds (full precision, "now"
being an argument sampled at call time), and a start exactly 2.5 seconds
in the past yields 5/2. -/
theorem sinceInSeconds_full_precision (now start : ℤ) :
    SinceInSeconds now start = ((now - start : ℤ) : ℚ) / 1000000000 ∧
    SinceInSeconds (start + 2500000000) start = 5 / 2 := by
  constructor
  · unfold SinceInSeconds timeSince
    exact durationSeconds_eq _
  · unfold SinceInSeconds timeSince
    rw [durationSeconds_eq]
    norm_num

/-- C4 counterexample: for a start 500 nanoseconds in the future of now,
`SinceInMicroseconds` returns 0, which is not negative — so it is false
that both helpers return a negative duration for every future start. -/
theorem future_start_not_always_negative :
    (0 : ℤ) < 500 ∧ SinceInMicroseconds 0 500 = 0 ∧
    ¬ SinceInMicroseconds 0 500 < 0 := by
  refine ⟨by norm_num, ?_, ?_⟩ <;> decide

/-- C4 amended: for every start in the future of now, the negative duration
is passed through unclamped: `SinceInSeconds` returns exactly
`(now − start)/10⁹ < 0`, `SinceInMicroseconds` returns the toward-zero
truncation, which is ≤ 0 and strictly negative whenever the skew is at
least one whole microsecond; a start one second in the future yields
exactly −1. -/
theorem future_start_negative_passthrough (now start : ℤ) (h : now < start) :
    SinceInSeconds now start < 0 ∧
    SinceInSeconds now start = ((now - start : ℤ) : ℚ) / 1000000000 ∧
    SinceInMicroseconds now start ≤ 0 ∧
    (1000 ≤ start - now → SinceInMicroseconds now start < 0) ∧
    SinceInSeconds now (now + 1000000000) = -1 := by
  have hsec : SinceInSeconds now start = ((now - start : ℤ) : ℚ) / 1000000000 := by
    unfold SinceInSeconds timeSince; exact durationSeconds_eq _
  have hneg : ((now - start : ℤ) : ℚ) < 0 := by
    exact_mod_cast sub_neg.mpr h
  have htd : (now - start).tdiv 1000 = -((start - now) / 1000) := by
    have h₁ : (start - now).tdiv 1000 = (start - now) / 1000 :=
      tdiv_1000_eq _ (by omega)
    have h₂ : (-(start - now)).tdiv 1000 = -((start - now).tdiv 1000) :=
      Int.neg_tdiv _ 1000
    have h₃ : now - start = -(start - now) := by ring
    rw [h₃, h₂, h₁]
  refine ⟨?_, hsec, ?_, ?_, ?_⟩
  · rw [hsec]; exact div_neg_of_neg_of_pos hneg (by norm_num)
  · unfold SinceInMicroseconds timeSince microsecondNanoseconds
    have : (now - start).tdiv 1000 ≤ 0 := by
      rw [htd]; omega
    exact_mod_cast this
  · intro hskew
    unfold SinceInMicroseconds timeSince microsecondNanoseconds
    have : (now - start).tdiv 1000 < 0 := by
      rw [htd]; omega
    exact_mod_cast this
  · unfold SinceInSeconds timeSince
    rw [durationSeconds_eq]
    norm_num

/-- C4 amended witness: instantiated one second in the future. -/
theorem future_start_negative_passthrough_witness :
    (0 : ℤ) < 1000000000 ∧
    (SinceInSeconds 0 1000000000 < 0 ∧
     SinceInSeconds 0 1000000000 = ((0 - 1000000000 : ℤ) : ℚ) / 1000000000 ∧
     SinceInMicroseconds 0 1000000000 ≤ 0 ∧
     ((1000 : ℤ) ≤ (1000000000 : ℤ) - 0 → SinceInMicroseconds 0 1000000000 < 0) ∧
     SinceInSeconds 0 (0 + 1000000000) = -1) :=
  ⟨by norm_num, future_start_negative_passthrough 0 1000000000 (by norm_num)⟩

/-- C10: for every start strictly less than one microsecond in the future of
now, `SinceInMicroseconds` returns exactly 0 (truncation toward zero, not
−1), and in general its result is always the image of an integer quotient,
never a fractional value. -/
theorem sinceInMicroseconds_truncates_toward_zero (now start : ℤ)
    (h₁ : now < start) (h₂ : start - now < 1000) :
    SinceInMicroseconds now start = 0 ∧
    ∀ a b : ℤ, ∃ q : ℤ, SinceInMicroseconds a b = (q : ℚ) := by
  constructor
  · unfold SinceInMicroseconds timeSince microsecondNanoseconds
    have h₃ : (start - now) / 1000 = 0 :=
      Int.ediv_eq_zero_of_lt (by omega) (by omega)
    have htd : (now - start).tdiv 1000 = -((start - now) / 1000) := by
      have ha : (start - now).tdiv 1000 = (start - now) / 1000 :=
        tdiv_1000_eq _ (by omega)
      have hb : (-(start - now)).tdiv 1000 = -((start - now).tdiv 1000) :=
        Int.neg_tdiv _ 1000
      have hc : now - start = -(start - now) := by ring
      rw [hc, hb, ha]
    rw [htd, h₃]
    norm_num
  · intro a b
    exact ⟨(a - b).tdiv 1000, rfl⟩

/-- C10 witness: a start 500 nanoseconds in the future yields exactly 0. -/
theorem sinceInMicroseconds_truncates_toward_zero_witness :
    (0 : ℤ) < 500 ∧ (500 : ℤ) - 0 < 1000 ∧
    (SinceInMicroseconds 0 500 = 0 ∧
     ∀ a b : ℤ, ∃ q : ℤ, SinceInMicroseconds a b = (q : ℚ)) :=
  ⟨by norm_num, by norm_num,
   sinceInMicroseconds_truncates_toward_zero 0 500 (by norm_num) (by norm_num)⟩

/-- Once the gate has fired, `Register` is a no-op. -/
lemma register_after_done (s : MetricsState) (h : s.once = true) :
    Register s = Except.ok s := by
  simp [Register, h]

/-- Once the gate has fired, any number of further calls is a no-op. -/
lemma registerN_after_done (n : Nat) (s : MetricsState) (h : s.once = true) :
    RegisterN n s = Except.ok s := by
  induction n with
  | zero => rfl
  | succ k ih => simp [RegisterN, register_after_done s h, ih]

/-- The first call from process start installs all eight series. -/
lemma register_first_call :
    Register initialState = Except.ok registeredState := by
  rfl

/-- C1: calling `Register` N ≥ 1 times from process start installs each of
the eight series into the shared registry exactly once; the result equals
that of the first call alone, and a further call on the registered state
returns it unchanged with no error. -/
theorem register_idempotent_installs_once (n : Nat) (h : 1 ≤ n) :
    RegisterN n initialState = Except.ok registeredState ∧
    Register initialState = Except.ok registeredState ∧
    (allSeries.all fun m =>
      registeredState.registry.countP (fun r => sameIdentity r m) == 1) = true ∧
    Register registeredState = Except.ok registeredState := by
  obtain ⟨k, rfl⟩ : ∃ k, n = k + 1 := ⟨n - 1, by omega⟩
  refine ⟨?_, register_first_call, by decide, register_after_done _ rfl⟩
  show RegisterN (k + 1) initialState = Except.ok registeredState
  unfold RegisterN
  rw [register_first_call]
  exact registerN_after_done k registeredState rfl

/-- C1 witness: three serial calls. -/
theorem register_idempotent_installs_once_witness :
    1 ≤ 3 ∧
    (RegisterN 3 initialState = Except.ok registeredState ∧
     Register initialState = Except.ok registeredState ∧
     (allSeries.all fun m =>
       registeredState.registry.countP (fun r => sameIdentity r m) == 1) = true ∧
     Register registeredState = Except.ok registeredState) :=
  ⟨by norm_num, register_idempotent_installs_once 3 (by norm_num)⟩

/-- C5: if the registry rejects a series while the registration body runs,
`Register` surfaces that failure immediately and uncaught — there is no
recovery path, and repeated invocation keeps failing rather than retrying
into success. -/
theorem register_surfaces_fatal_error (s : MetricsState) (e : String)
    (h₁ : s.once = false) (h₂ : registerBody s.registry = Except.error e) :
    Register s = Except.error e ∧
    ∀ n : Nat, RegisterN (n + 1) s = Except.error e := by
  have hr : Register s = Except.error e := by simp [Register, h₁, h₂]
  exact ⟨hr, fun n => by simp [RegisterN, hr]⟩

/-- C5 witness: a registry already holding the latency series' identity
makes registration fail fatally. -/
theorem register_surfaces_fatal_error_witness :
    (MetricsState.mk false [DockerOperationsLatency]).once = false ∧
    registerBody (MetricsState.mk false [DockerOperationsLatency]).registry
      = Except.error
        "duplicate metrics collector registration attempted: docker_operations_duration_seconds" ∧
    (Register (MetricsState.mk false [DockerOperationsLatency])
      = Except.error
        "duplicate metrics collector registration attempted: docker_operations_duration_seconds" ∧
     ∀ n : Nat, RegisterN (n + 1) (MetricsState.mk false [DockerOperationsLatency])
      = Except.error
        "duplicate metrics collector registration attempted: docker_operations_duration_seconds") :=
  ⟨rfl, rfl, register_surfaces_fatal_error _ _ rfl rfl⟩

/-- The initial configuration satisfies the gate invariant. -/
lemma onceInv_init (n : Nat) : OnceInv (onceInit n) := by
  refine ⟨fun _ => ⟨rfl, fun i => rfl⟩, fun hg => ?_, fun hg => ?_⟩ <;>
    exact nomatch hg

/-- Every interleaved step preserves the gate invariant. -/
lemma onceInv_step {n : Nat} {c c' : OnceConfig n}
    (hstep : OnceStep c c') (hinv : OnceInv c) : OnceInv c' := by
  obtain ⟨hns, hip, hd⟩ := hinv
  cases hstep with
  | acquire i hg hi =>
      obtain ⟨hruns, hidle⟩ := hns hg
      unfold OnceInv
      dsimp only
      refine ⟨fun hc => absurd hc (by decide), fun _ => ?_,
              fun hc => absurd hc (by decide)⟩
      refine ⟨hruns, ⟨i, Function.update_same i CallerPhase.executing c.callers⟩,
              ?_, ?_⟩
      · intro j k hj hk
        rcases eq_or_ne j i with rfl | hji
        · rcases eq_or_ne k j with rfl | hkj
          · rfl
          · rw [Function.update_noteq hkj, hidle k] at hk
            exact absurd hk (by decide)
        · rw [Function.update_noteq hji, hidle j] at hj
          exact absurd hj (by decide)
      · intro j hj
        rcases eq_or_ne j i with rfl | hji
        · rw [Function.update_same] at hj
          exact absurd hj (by decide)
        · rw [Function.update_noteq hji, hidle j] at hj
          exact absurd hj (by decide)
  | block i hg hi =>
      obtain ⟨hruns, ⟨w, hw⟩, huniq, hnoret⟩ := hip hg
      have hwi : w ≠ i := by
        intro h
        rw [h, hi] at hw
        exact absurd hw (by decide)
      unfold OnceInv
      dsimp only
      refine ⟨fun hc => ?_, fun _ => ?_, fun hc => ?_⟩
      · rw [hg] at hc
        exact absurd hc (by decide)
      · refine ⟨hruns, ⟨w, ?_⟩, ?_, ?_⟩
        · rw [Function.update_noteq hwi]
          exact hw
        · intro j k hj hk
          rcases eq_or_ne j i with rfl | hji
          · rw [Function.update_same] at hj
            exact absurd hj (by decide)
          · rcases eq_or_ne k i with rfl | hki
            · rw [Function.update_same] at hk
              exact absurd hk (by decide)
            · rw [Function.update_noteq hji] at hj
              rw [Function.update_noteq hki] at hk
              exact huniq j k hj hk
        · intro j hj
          rcases eq_or_ne j i with rfl | hji
          · rw [Function.update_same] at hj
            exact absurd hj (by decide)
          · rw [Function.update_noteq hji] at hj
            exact hnoret j hj
      · rw [hg] at hc
        exact absurd hc (by decide)
  | fastReturn i hg hi =>
      obtain ⟨hruns, hnoexec⟩ := hd hg
      unfold OnceInv
      dsimp only
      refine ⟨fun hc => ?_, fun hc => ?_, fun _ => ⟨hruns, ?_⟩⟩
      · rw [hg] at hc
        exact absurd hc (by decide)
      · rw [hg] at hc
        exact absurd hc (by decide)
      · intro j hj
        rcases eq_or_ne j i with rfl | hji
        · rw [Function.update_same] at hj
          exact absurd hj (by decide)
        · rw [Function.update_noteq hji] at hj
          exact hnoexec j hj
  | finish i hi =>
      have hg : c.gate = GateState.inProgress := by
        cases hcg : c.gate with
        | notStarted =>
            obtain ⟨_, hidle⟩ := hns hcg
            rw [hidle i] at hi
            exact absurd hi (by decide)
        | inProgress => rfl
        | done =>
            obtain ⟨_, hnoexec⟩ := hd hcg
            exact absurd hi (hnoexec i)
      obtain ⟨hruns, _, huniq, _⟩ := hip hg
      unfold OnceInv
      dsimp only
      refine ⟨fun hc => absurd hc (by decide), fun hc => absurd hc (by decide),
              fun _ => ⟨by omega, ?_⟩⟩
      intro j hj
      rcases eq_or_ne j i with rfl | hji
      · rw [Function.update_same] at hj
        exact absurd hj (by decide)
      · rw [Function.update_noteq hji] at hj
        exact hji (huniq j i hj hi)
  | wake i hg hi =>
      obtain ⟨hruns, hnoexec⟩ := hd hg
      unfold OnceInv
      dsimp only
      refine ⟨fun hc => ?_, fun hc => ?_, fun _ => ⟨hruns, ?_⟩⟩
      · rw [hg] at hc
        exact absurd hc (by decide)
      · rw [hg] at hc
        exact absurd hc (by decide)
      · intro j hj
        rcases eq_or_ne j i with rfl | hji
        · rw [Function.update_same] at hj
          exact absurd hj (by decide)
        · rw [Function.update_noteq hji] at hj
          exact hnoexec j hj

/-- Every reachable configuration satisfies the gate invariant. -/
lemma onceInv_reachable {n : Nat} {c : OnceConfig n}
    (h : OnceReachable c) : OnceInv c := by
  induction h with
  | refl => exact onceInv_init n
  | tail _ hstep ih => exact onceInv_step hstep ih

/-- C8: in every reachable configuration of any number of concurrent
callers racing on the gate, the registration body has executed at most
once, at most one caller is ever inside it, and any caller that has
returned did so only after the gate was marked done with the body having
run exactly once — so all callers observe registration as complete before
returning. -/
theorem once_gate_exactly_once {n : Nat} (c : OnceConfig n)
    (h : OnceReachable c) :
    c.bodyRuns ≤ 1 ∧
    (∀ i j, c.callers i = CallerPhase.executing →
      c.callers j = CallerPhase.executing → i = j) ∧
    (∀ i, c.callers i = CallerPhase.returned →
      c.gate = GateState.done ∧ c.bodyRuns = 1) := by
  obtain ⟨hns, hip, hd⟩ := onceInv_reachable h
  cases hg : c.gate with
  | notStarted =>
      obtain ⟨hruns, hidle⟩ := hns hg
      refine ⟨by omega, fun i j hi _ => ?_, fun i hi => ?_⟩
      · rw [hidle i] at hi; exact nomatch hi
      · rw [hidle i] at hi; exact nomatch hi
  | inProgress =>
      obtain ⟨hruns, _, huniq, hnoret⟩ := hip hg
      exact ⟨by omega, huniq, fun i hi => absurd hi (hnoret i)⟩
  | done =>
      obtain ⟨hruns, hnoexec⟩ := hd hg
      exact ⟨by omega, fun i j hi _ => absurd hi (hnoexec i),
             fun i _ => ⟨rfl, hruns⟩⟩

/-- C8 witness: a concrete two-caller race in which caller 0 acquired the
gate, ran the body and returned. -/
theorem once_gate_exactly_once_witness :
    OnceReachable onceDemoEnd ∧
    (onceDemoEnd.bodyRuns ≤ 1 ∧
     (∀ i j, onceDemoEnd.callers i = CallerPhase.executing →
       onceDemoEnd.callers j = CallerPhase.executing → i = j) ∧
     (∀ i, onceDemoEnd.callers i = CallerPhase.returned →
       onceDemoEnd.gate = GateState.done ∧ onceDemoEnd.bodyRuns = 1)) :=
  have h₁ : OnceReachable onceDemoMid :=
    Relation.ReflTransGen.tail Relation.ReflTransGen.refl
      (OnceStep.acquire (onceInit 2) 0 rfl rfl)
  have h₂ : OnceReachable onceDemoEnd :=
    Relation.ReflTransGen.tail h₁
      (OnceStep.finish onceDemoMid 0 (by
        show Function.update (onceInit 2).callers 0 CallerPhase.executing 0
          = CallerPhase.executing
        simp))
  ⟨h₂, once_gate_exactly_once onceDemoEnd h₂⟩

end DockershimMetrics
